import Mathlib

/-!
Verification of the sentiment-to-recommendation core of the
Movie-and-Book-Recommendations repository (src/sentiment.py, src/app.py).

The Python code is shallowly embedded:
* sentiment labels become the closed inductive `Label`; the profile dict
  `{"Negative": .., "Neutral": .., "Positive": ..}` (always built in the
  classifier's label order) becomes a function `Label → ℚ` iterated in the
  fixed order Negative, Neutral, Positive;
* Python floats are idealised as rationals `ℚ`; Python 3 `round` is
  round-half-to-even, embedded as `pyRound`;
* `random.sample(pool, k)` (k ≤ |pool|) returns `k` items drawn at distinct
  positions of `pool`, in arbitrary order.  It is embedded as an abstract
  `Sampler`: any function whose result, for `k ≤ |pool|`, has length `k` and
  is a permutation of a sublist of `pool`.  The call-site index argument lets
  distinct calls behave independently; theorems quantify over all samplers;
* the catalog dicts `self.books` / `self.movies` are the literal fixture data
  of `_get_mock_*`; dict `.get(key, [])` lookups keep their default-[] shape;
* Python strings are embedded as `String` (or `List Char` for the
  character-level tweet preprocessing).
-/

/-- The closed sentiment label set; `self.LABELS = ['Negative', 'Neutral',
'Positive']` fixes the enumeration order used by every dict of the program. -/
inductive Label where
  | Negative
  | Neutral
  | Positive
deriving DecidableEq, Fintype

/-- `self.LABELS` (sentiment.py line 14), in the classifier's order. -/
def LABELS : List Label := [Label.Negative, Label.Neutral, Label.Positive]

/-- Index of a label in `LABELS` (the position of the key in every
profile dict built by the program). -/
def labelIdx : Label → ℕ
  | .Negative => 0
  | .Neutral => 1
  | .Positive => 2

/-- The string key of a label, as used in the Python dicts. -/
def labelStr : Label → String
  | .Negative => "Negative"
  | .Neutral => "Neutral"
  | .Positive => "Positive"

/-- Python 3 `round` on a rational: nearest integer, ties to even
(banker's rounding). Embeds `round(num_recommendations * prob)`. -/
def pyRound (q : ℚ) : ℤ :=
  let n : ℤ := q.floor
  let r : ℚ := q - n
  if r < 1/2 then n
  else if 1/2 < r then n + 1
  else if n % 2 = 0 then n else n + 1

/-- `items_to_take = max(1, int(round(num_recommendations * prob))) if prob > 0.1 else 0`
(sentiment.py line 320). -/
def items_to_take (num_recommendations : ℕ) (prob : ℚ) : ℕ :=
  if 1/10 < prob then (max 1 (pyRound ((num_recommendations : ℚ) * prob))).toNat else 0

/-- Python `max(iterable, key=f)`: fold keeping the current best, replacing it
only on a strictly greater key, so the first maximiser wins. -/
def pyMaxFold (p : Label → ℚ) : List Label → Label → Label
  | [], best => best
  | l :: ls, best => pyMaxFold p ls (if p best < p l then l else best)

/-- `max_sentiment = max(sentiment_probs, key=sentiment_probs.get)`
(sentiment.py lines 56 and 330): Python's `max` over the profile dict, whose
keys iterate in the insertion order Negative, Neutral, Positive. -/
def max_sentiment (p : Label → ℚ) : Label :=
  pyMaxFold p [Label.Neutral, Label.Positive] Label.Negative

/-- Abstract model of `random.sample(population, k)` for `k ≤ |population|`:
the result has length `k` and consists of items at `k` distinct positions of
the population, in arbitrary order (`List.Subperm`).  The first argument is a
call-site index, so different calls may behave independently. -/
structure Sampler (α : Type) where
  sample : ℕ → List α → ℕ → List α
  length_sample : ∀ s l k, k ≤ l.length → (sample s l k).length = k
  subperm_sample : ∀ s l k, k ≤ l.length → (sample s l k).Subperm l

/-- A concrete sampler (used to exhibit particular runs of the randomized
code): take the first `k` items of the pool. -/
def takeSampler (α : Type) : Sampler α where
  sample := fun _ l k => l.take k
  length_sample := by
    intro s l k h
    simp [List.length_take]
    omega
  subperm_sample := by
    intro s l k _
    exact (List.take_sublist k l).subperm

/-- One iteration of the proportional-allocation loop of
`get_genre_recommendations` (sentiment.py lines 318-326): for label `l` with
probability `probs l`, if the bucket pool is non-empty and `items_to_take`
is positive, draw `min(items_to_take, len(available_items))` random items
from the pool. -/
def labelDraw [DecidableEq α] (S : Sampler α) (probs : Label → ℚ) (all_items : Label → List α)
    (num_recommendations : ℕ) (s : ℕ) (l : Label) : List α :=
  if all_items l ≠ [] ∧ 0 < items_to_take num_recommendations (probs l) then
    S.sample s (all_items l)
      (min (items_to_take num_recommendations (probs l)) (all_items l).length)
  else []

/-- The full proportional step: the loop `for sentiment, prob in
sentiment_probs.items()` extends `total_items` once per label, in the dict's
insertion order Negative, Neutral, Positive. -/
def proportional [DecidableEq α] (S : Sampler α) (probs : Label → ℚ) (all_items : Label → List α)
    (num_recommendations : ℕ) : List α :=
  labelDraw S probs all_items num_recommendations 0 Label.Negative ++
    labelDraw S probs all_items num_recommendations 1 Label.Neutral ++
      labelDraw S probs all_items num_recommendations 2 Label.Positive

/-- Shortfall backfill (sentiment.py lines 329-339): if fewer than
`num_recommendations` items were allocated, draw the shortfall from the
highest-probability bucket, skipping items already selected. -/
def backfill [DecidableEq α] (S : Sampler α) (probs : Label → ℚ)
    (all_items : Label → List α) (num_recommendations : ℕ)
    (total_items : List α) : List α :=
  if total_items.length < num_recommendations then
    if (all_items (max_sentiment probs)).filter (fun x => x ∉ total_items) ≠ [] then
      total_items ++
        S.sample 3 ((all_items (max_sentiment probs)).filter (fun x => x ∉ total_items))
          (min (num_recommendations - total_items.length)
            ((all_items (max_sentiment probs)).filter (fun x => x ∉ total_items)).length)
    else total_items
  else total_items

/-- Overflow trim (sentiment.py lines 342-343): if more than
`num_recommendations` items were collected, keep a random subset of exactly
`num_recommendations` of them. -/
def trim (S : Sampler α) (num_recommendations : ℕ) (total_items : List α) : List α :=
  if num_recommendations < total_items.length then
    S.sample 4 total_items num_recommendations
  else total_items

/-- The weighted-allocation core of `get_genre_recommendations`
(sentiment.py lines 316-345), with the catalog `all_items` (`self.books` or
`self.movies`) as an explicit parameter; this is the spec's
`allocate(profile, bucketPools, count)`. -/
def allocate [DecidableEq α] (S : Sampler α) (sentiment_probs : Label → ℚ)
    (all_items : Label → List α) (num_recommendations : ℕ) : List α :=
  trim S num_recommendations
    (backfill S sentiment_probs all_items num_recommendations
      (proportional S sentiment_probs all_items num_recommendations))

/-- Total number of catalog items across the three sentiment buckets. -/
def total_size (all_items : Label → List α) : ℕ :=
  (all_items Label.Negative).length + (all_items Label.Neutral).length +
    (all_items Label.Positive).length

/-- A book record of the fixture catalog (`_get_mock_*_books`); identity is
full field equality, as for the Python dicts (`item not in total_items`). -/
structure Book where
  title : String
  author : String
  genre : String
  year : ℕ
  description : String
deriving DecidableEq

/-- A movie record of the fixture catalog (`_get_mock_*_movies`). -/
structure Movie where
  title : String
  release_year : ℕ
  genre : String
  rating : ℚ
  description : String
deriving DecidableEq

/-- A catalog item: a book or a movie (the two media types; the Python lists
are heterogeneous, tagged here by the constructor). -/
inductive Item where
  | book (b : Book)
  | movie (m : Movie)
deriving DecidableEq

/-- `_get_mock_positive_movies` (sentiment.py). -/
def positive_movies : List Movie := [
  { title := "The Pursuit of Happyness", release_year := 2006,
    genre := "Drama, Biography", rating := 8.0,
    description := "A struggling salesman takes custody of his son as he's poised to begin a life-changing professional career." },
  { title := "La La Land", release_year := 2016,
    genre := "Musical, Romance", rating := 8.0,
    description := "While navigating their careers in Los Angeles, a pianist and an actress fall in love while attempting to reconcile their aspirations for the future." },
  { title := "Soul", release_year := 2020,
    genre := "Animation, Adventure", rating := 8.1,
    description := "A musician who has lost his passion for music is transported out of his body and must find his way back with the help of an infant soul learning about herself." },
  { title := "Forrest Gump", release_year := 1994,
    genre := "Drama, Romance", rating := 8.8,
    description := "The presidencies of Kennedy and Johnson, the Vietnam War, the Watergate scandal and other historical events unfold from the perspective of an Alabama man with an IQ of 75." },
  { title := "Toy Story", release_year := 1995,
    genre := "Animation, Adventure", rating := 8.3,
    description := "A cowboy doll is profoundly threatened and jealous when a new spaceman figure supplants him as top toy in a boy's room." },
  { title := "Inside Out", release_year := 2015,
    genre := "Animation, Adventure", rating := 8.1,
    description := "After young Riley is uprooted from her Midwest life and moved to San Francisco, her emotions - Joy, Fear, Anger, Disgust and Sadness - conflict on how best to navigate a new city, house, and school." },
  { title := "CODA", release_year := 2021,
    genre := "Drama, Music", rating := 8.0,
    description := "As a CODA (Child of Deaf Adults), Ruby is the only hearing person in her deaf family. When the family's fishing business is threatened, Ruby finds herself torn between pursuing her love of music and her fear of abandoning her parents." },
  { title := "Love Actually", release_year := 2003,
    genre := "Comedy, Drama", rating := 7.6,
    description := "Follows the lives of eight very different couples in dealing with their love lives in various loosely interrelated tales all set during a frantic month before Christmas in London, England." },
  { title := "The Intouchables", release_year := 2011,
    genre := "Biography, Comedy", rating := 8.5,
    description := "After he becomes a quadriplegic from a paragliding accident, an aristocrat hires a young man from the projects to be his caregiver." },
  { title := "Up", release_year := 2009,
    genre := "Animation, Adventure", rating := 8.2,
    description := "78-year-old Carl Fredricksen travels to Paradise Falls in his house equipped with balloons, inadvertently taking a young stowaway." }
]

/-- `_get_mock_neutral_movies` (sentiment.py). -/
def neutral_movies : List Movie := [
  { title := "Inception", release_year := 2010,
    genre := "Action, Adventure", rating := 8.8,
    description := "A thief who steals corporate secrets through the use of dream-sharing technology is given the inverse task of planting an idea into the mind of a C.E.O." },
  { title := "The Social Network", release_year := 2010,
    genre := "Biography, Drama", rating := 7.7,
    description := "As Harvard student Mark Zuckerberg creates the social networking site that would become known as Facebook, he is sued by the twins who claimed he stole their idea, and by the co-founder who was later squeezed out of the business." },
  { title := "The Martian", release_year := 2015,
    genre := "Adventure, Drama", rating := 8.0,
    description := "An astronaut becomes stranded on Mars after his team assume him dead, and must rely on his ingenuity to find a way to signal to Earth that he is alive." },
  { title := "The Matrix", release_year := 1999,
    genre := "Action, Sci-Fi", rating := 8.7,
    description := "When a beautiful stranger leads computer hacker Neo to a forbidding underworld, he discovers the shocking truth--the life he knows is the elaborate deception of an evil cyber-intelligence." },
  { title := "Avatar", release_year := 2009,
    genre := "Action, Adventure", rating := 7.8,
    description := "A paraplegic Marine dispatched to the moon Pandora on a unique mission becomes torn between following his orders and protecting the world he feels is his home." },
  { title := "Dune", release_year := 2021,
    genre := "Action, Adventure", rating := 8.0,
    description := "Feature adaptation of Frank Herbert's science fiction novel about the son of a noble family entrusted with the protection of the most valuable asset and most vital element in the galaxy." },
  { title := "Casino Royale", release_year := 2006,
    genre := "Action, Adventure", rating := 8.0,
    description := "After earning 00 status and a licence to kill, Secret Agent James Bond sets out on his first mission as 007. Bond must defeat a private banker funding terrorists in a high-stakes game of poker at Casino Royale, Montenegro." },
  { title := "Interstellar", release_year := 2014,
    genre := "Adventure, Drama", rating := 8.6,
    description := "A team of explorers travel through a wormhole in space in an attempt to ensure humanity's survival." },
  { title := "The Prestige", release_year := 2006,
    genre := "Drama, Mystery", rating := 8.5,
    description := "After a tragic accident, two stage magicians engage in a battle to create the ultimate illusion while sacrificing everything they have to outwit each other." },
  { title := "Memento", release_year := 2000,
    genre := "Mystery, Thriller", rating := 8.4,
    description := "A man with short-term memory loss attempts to track down his wife's murderer." }
]

/-- `_get_mock_negative_movies` (sentiment.py). -/
def negative_movies : List Movie := [
  { title := "Joker", release_year := 2019,
    genre := "Crime, Drama", rating := 8.4,
    description := "In Gotham City, mentally troubled comedian Arthur Fleck is disregarded and mistreated by society. He then embarks on a downward spiral of revolution and bloody crime. This path brings him face-to-face with his alter-ego: the Joker." },
  { title := "The Lighthouse", release_year := 2019,
    genre := "Drama, Fantasy", rating := 7.5,
    description := "Two lighthouse keepers try to maintain their sanity while living on a remote and mysterious New England island in the 1890s." },
  { title := "Requiem for a Dream", release_year := 2000,
    genre := "Drama", rating := 8.3,
    description := "The drug-induced utopias of four Coney Island people are shattered when their addictions run deep." },
  { title := "Black Swan", release_year := 2010,
    genre := "Drama, Thriller", rating := 8.0,
    description := "A committed dancer struggles to maintain her sanity after winning the lead role in a production of Tchaikovsky's 'Swan Lake'." },
  { title := "No Country for Old Men", release_year := 2007,
    genre := "Crime, Drama", rating := 8.1,
    description := "Violence and mayhem ensue after a hunter stumbles upon a drug deal gone wrong and more than two million dollars in cash near the Rio Grande." },
  { title := "Hereditary", release_year := 2018,
    genre := "Drama, Horror", rating := 7.3,
    description := "A grieving family is haunted by tragic and disturbing occurrences after the death of their secretive grandmother." },
  { title := "Uncut Gems", release_year := 2019,
    genre := "Crime, Drama", rating := 7.4,
    description := "With his debts mounting and angry collectors closing in, a fast-talking New York City jeweler risks everything in hope of staying afloat and alive." },
  { title := "The Revenant", release_year := 2015,
    genre := "Action, Adventure", rating := 8.0,
    description := "A frontiersman on a fur trading expedition in the 1820s fights for survival after being mauled by a bear and left for dead by members of his own hunting team." },
  { title := "Se7en", release_year := 1995,
    genre := "Crime, Drama", rating := 8.6,
    description := "Two detectives, a rookie and a veteran, hunt a serial killer who uses the seven deadly sins as his motives." },
  { title := "The Silence of the Lambs", release_year := 1991,
    genre := "Crime, Drama", rating := 8.6,
    description := "A young F.B.I. cadet must receive the help of an incarcerated and manipulative cannibal killer to help catch another serial killer, a madman who skins his victims." }
]

/-- `_get_mock_positive_books` (sentiment.py). -/
def positive_books : List Book := [
  { title := "The Alchemist", author := "Paulo Coelho",
    genre := "Fiction, Adventure", year := 1988,
    description := "A story about following your dreams and listening to your heart." },
  { title := "Atomic Habits", author := "James Clear",
    genre := "Self-Help, Productivity", year := 2018,
    description := "Tiny Changes, Remarkable Results: An Easy & Proven Way to Build Good Habits & Break Bad Ones." },
  { title := "The Power of Positive Thinking", author := "Norman Vincent Peale",
    genre := "Self-Help", year := 1952,
    description := "A practical guide to mastering the problems of everyday living." },
  { title := "Man's Search for Meaning", author := "Viktor E. Frankl",
    genre := "Psychology, Memoir", year := 1946,
    description := "Psychiatrist Viktor Frankl's memoir has riveted generations with its descriptions of life in Nazi death camps and its lessons for spiritual survival." },
  { title := "The Book of Joy", author := "Dalai Lama and Desmond Tutu",
    genre := "Spirituality", year := 2016,
    description := "Lasting Happiness in a Changing World." },
  { title := "A Man Called Ove", author := "Fredrik Backman",
    genre := "Fiction, Humor", year := 2012,
    description := "A grumpy yet loveable man finds his solitary world turned on its head when a boisterous young family moves in next door." },
  { title := "Where the Crawdads Sing", author := "Delia Owens",
    genre := "Fiction, Coming of Age", year := 2018,
    description := "For years, rumors of the 'Marsh Girl' have haunted Barkley Cove, a quiet town on the North Carolina coast." },
  { title := "The Happiness Project", author := "Gretchen Rubin",
    genre := "Self-Help, Memoir", year := 2009,
    description := "Or, Why I Spent a Year Trying to Sing in the Morning, Clean My Closets, Fight Right, Read Aristotle, and Generally Have More Fun." },
  { title := "Little Women", author := "Louisa May Alcott",
    genre := "Fiction, Classic", year := 1868,
    description := "The story of the lives of the four March sisters—Meg, Jo, Beth, and Amy—detailing their passage from childhood to womanhood." },
  { title := "Anne of Green Gables", author := "L.M. Montgomery",
    genre := "Fiction, Children's", year := 1908,
    description := "The adventures of an 11-year-old orphan girl who lives on Prince Edward Island." }
]

/-- `_get_mock_neutral_books` (sentiment.py). -/
def neutral_books : List Book := [
  { title := "Sapiens: A Brief History of Humankind", author := "Yuval Noah Harari",
    genre := "History, Science", year := 2011,
    description := "A brief history of humankind from the Stone Age up to the twenty-first century." },
  { title := "Thinking, Fast and Slow", author := "Daniel Kahneman",
    genre := "Psychology, Economics", year := 2011,
    description := "How the human mind works, and how we make decisions." },
  { title := "Educated", author := "Tara Westover",
    genre := "Memoir, Biography", year := 2018,
    description := "A memoir about a young girl who, kept out of school, leaves her survivalist family and goes on to earn a PhD from Cambridge University." },
  { title := "The Silent Patient", author := "Alex Michaelides",
    genre := "Mystery, Thriller", year := 2019,
    description := "A psychological thriller about a woman's act of violence against her husband―and of the therapist obsessed with uncovering her motive." },
  { title := "1984", author := "George Orwell",
    genre := "Fiction, Dystopian", year := 1949,
    description := "A dystopian social science fiction novel set in a world of perpetual war, omnipresent government surveillance, and public manipulation." },
  { title := "The Great Gatsby", author := "F. Scott Fitzgerald",
    genre := "Fiction, Classic", year := 1925,
    description := "A portrait of the Jazz Age in all of its decadence and excess." },
  { title := "To Kill a Mockingbird", author := "Harper Lee",
    genre := "Fiction, Classic", year := 1960,
    description := "A novel about the childhood of Scout Finch in a Southern town and her father's battle for justice." },
  { title := "The Catcher in the Rye", author := "J.D. Salinger",
    genre := "Fiction, Coming of Age", year := 1951,
    description := "The story of a teenaged boy dealing with alienation." },
  { title := "Pride and Prejudice", author := "Jane Austen",
    genre := "Fiction, Romance", year := 1813,
    description := "A romantic novel of manners that follows the character development of Elizabeth Bennet." },
  { title := "The Hobbit", author := "J.R.R. Tolkien",
    genre := "Fiction, Fantasy", year := 1937,
    description := "A fantasy novel about the adventures of hobbit Bilbo Baggins." }
]

/-- `_get_mock_negative_books` (sentiment.py). -/
def negative_books : List Book := [
  { title := "The Road", author := "Cormac McCarthy",
    genre := "Fiction, Post-Apocalyptic", year := 2006,
    description := "A journey of a father and his son walking alone through burned America, heading through the ravaged landscape to the coast." },
  { title := "Crime and Punishment", author := "Fyodor Dostoevsky",
    genre := "Fiction, Psychological", year := 1866,
    description := "The story of the mental anguish and moral dilemmas of Rodion Raskolnikov, an impoverished ex-student in Saint Petersburg who formulates a plan to kill an unscrupulous pawnbroker." },
  { title := "The Bell Jar", author := "Sylvia Plath",
    genre := "Fiction, Autobiographical", year := 1963,
    description := "Chronicles a young woman's descent into mental illness." },
  { title := "No Longer Human", author := "Osamu Dazai",
    genre := "Fiction, Psychological", year := 1948,
    description := "The poignant and fascinating story of a young man who is caught between the breakup of the traditions of a northern Japanese aristocratic family and the impact of Western ideas." },
  { title := "The Metamorphosis", author := "Franz Kafka",
    genre := "Fiction, Absurdist", year := 1915,
    description := "A novella about a man who wakes up one morning to find himself transformed into a huge insect." },
  { title := "Brave New World", author := "Aldous Huxley",
    genre := "Fiction, Dystopian", year := 1932,
    description := "A dystopian novel set in a futuristic World State of genetically modified citizens and an intelligence-based social hierarchy." },
  { title := "The Stranger", author := "Albert Camus",
    genre := "Fiction, Philosophical", year := 1942,
    description := "Through the story of an ordinary man unwittingly drawn into a senseless murder on an Algerian beach, Camus explored what he termed 'the nakedness of man faced with the absurd.'" },
  { title := "Lord of the Flies", author := "William Golding",
    genre := "Fiction, Allegorical", year := 1954,
    description := "A group of British boys stuck on an uninhabited island who try to govern themselves with disastrous results." },
  { title := "A Clockwork Orange", author := "Anthony Burgess",
    genre := "Fiction, Dystopian", year := 1962,
    description := "A frightening fable about good and evil, and the meaning of human freedom." },
  { title := "Pet Sematary", author := "Stephen King",
    genre := "Fiction, Horror", year := 1983,
    description := "When Dr. Louis Creed takes a new job and moves his family to the idyllic rural town of Ludlow, Maine, this new beginning seems too good to be true." }
]

/-- `self.books` (sentiment.py `_fetch_book_data`): the dict mapping the three
sentiment keys to their fixture pools. -/
def books : Label → List Book
  | .Positive => positive_books
  | .Neutral => neutral_books
  | .Negative => negative_books

/-- `self.movies` (sentiment.py `_fetch_movie_data`). -/
def movies : Label → List Movie
  | .Positive => positive_movies
  | .Neutral => neutral_movies
  | .Negative => negative_movies

/-- The book pools as `Item` lists. -/
def books_items : Label → List Item := fun l => (books l).map Item.book

/-- The movie pools as `Item` lists. -/
def movies_items : Label → List Item := fun l => (movies l).map Item.movie

/-- `self.books.get(sentiment, [])` for an arbitrary sentiment string:
dictionary lookup with default `[]` (sentiment.py line 284). -/
def books_get (sentiment : String) : List Book :=
  if sentiment = "Positive" then positive_books
  else if sentiment = "Neutral" then neutral_books
  else if sentiment = "Negative" then negative_books
  else []

/-- `self.movies.get(sentiment, [])` (sentiment.py line 286). -/
def movies_get (sentiment : String) : List Movie :=
  if sentiment = "Positive" then positive_movies
  else if sentiment = "Neutral" then neutral_movies
  else if sentiment = "Negative" then negative_movies
  else []

/-- `MediaRecommender.get_recommendations` (sentiment.py lines 271-293):
look the sentiment key up in the catalog of the media type (default `[]`),
and if the pool is larger than `num_recommendations` return a random sample,
otherwise return the pool itself.  Unknown media types return `[]`. -/
def get_recommendations (Sb : Sampler Book) (Sm : Sampler Movie)
    (sentiment media_type : String) (num_recommendations : ℕ) : List Item :=
  if media_type = "books" then
    let all_recommendations := books_get sentiment
    if num_recommendations < all_recommendations.length then
      (Sb.sample 0 all_recommendations num_recommendations).map Item.book
    else all_recommendations.map Item.book
  else if media_type = "movies" then
    let all_recommendations := movies_get sentiment
    if num_recommendations < all_recommendations.length then
      (Sm.sample 0 all_recommendations num_recommendations).map Item.movie
    else all_recommendations.map Item.movie
  else []

/-- `MediaRecommender.get_genre_recommendations` (sentiment.py lines 295-345):
dispatch on the media type (unknown types return `[]`), then run the
weighted allocation over that catalog. -/
def get_genre_recommendations (S : Sampler Item) (sentiment_probs : Label → ℚ)
    (media_type : String) (num_recommendations : ℕ) : List Item :=
  if media_type = "books" then allocate S sentiment_probs books_items num_recommendations
  else if media_type = "movies" then allocate S sentiment_probs movies_items num_recommendations
  else []

/-- Python `tweet.split(' ')`: split on every single space character, keeping
empty components (so `join`/`split` are mutually inverse on space-free
words). -/
def splitSp : List Char → List (List Char)
  | [] => [[]]
  | c :: cs =>
    if c = ' ' then [] :: splitSp cs
    else
      match splitSp cs with
      | w :: ws => (c :: w) :: ws
      | [] => [[c]]

/-- Python `" ".join(words)`. -/
def joinSp : List (List Char) → List Char
  | [] => []
  | [w] => w
  | w :: ws => w ++ ' ' :: joinSp ws

/-- The per-word rewrite of `preprocess_tweet` (sentiment.py lines 31-36):
a word starting with `@` of length > 1 becomes `@user`; otherwise a word
starting with `http` becomes `http`; every other word is unchanged. -/
def procWord (w : List Char) : List Char :=
  if ['@'].isPrefixOf w ∧ 1 < w.length then "@user".toList
  else if "http".toList.isPrefixOf w then "http".toList
  else w

/-- `SentimentAnalyzer.preprocess_tweet` (sentiment.py lines 20-37): split the
tweet on spaces, rewrite each word, and join with spaces. -/
def preprocess_tweet (tweet : String) : String :=
  String.mk (joinSp ((splitSp tweet.data).map procWord))

/-- `SentimentAnalyzer.analyze_sentiment` (sentiment.py lines 39-61).  The
RoBERTa model plus softmax is opaque: `model` maps the preprocessed text to
the score array (indexed like `LABELS`).  The function builds the
probability dict `{LABELS[i]: scores[i]}` and takes `max(probabilities,
key=probabilities.get)` as the dominant sentiment. -/
def analyze_sentiment (model : String → ℕ → ℚ) (tweet : String) :
    (Label → ℚ) × Label :=
  let scores := model (preprocess_tweet tweet)
  let sentiment_probabilities : Label → ℚ := fun l => scores (labelIdx l)
  (sentiment_probabilities, max_sentiment sentiment_probabilities)

/-- A cell of the text column of the uploaded CSV: either a string or some
non-string value (`isinstance(text, str)` fails). -/
inductive CsvCell where
  | str (text : String)
  | notStr
deriving DecidableEq

/-- One row of the batch-analysis result table (app.py lines 207-222). -/
structure ResultRow where
  text : String
  max_sentiment : String
  positive : ℚ
  neutral : ℚ
  negative : ℚ
deriving DecidableEq

/-- One iteration of the batch loop (app.py lines 205-222): a string cell is
analyzed (text preview truncated to 100 characters), a non-string cell
produces the sentinel invalid row. -/
def processRow (model : String → ℕ → ℚ) : CsvCell → ResultRow
  | .str text =>
    let sentiment_result := analyze_sentiment model text
    { text := if 100 < text.length then text.take 100 ++ "..." else text
      max_sentiment := labelStr sentiment_result.2
      positive := sentiment_result.1 Label.Positive
      neutral := sentiment_result.1 Label.Neutral
      negative := sentiment_result.1 Label.Negative }
  | .notStr =>
    { text := "Invalid text"
      max_sentiment := "N/A"
      positive := 0
      neutral := 0
      negative := 0 }

/-- The whole batch loop (app.py lines 203-229): one result row is appended
per input row, in order. -/
def batchAnalyze (model : String → ℕ → ℚ) (rows : List CsvCell) : List ResultRow :=
  rows.map (processRow model)

/-! ### Helper lemmas about the allocator -/

theorem subperm_nodup {α : Type} {l₁ l₂ : List α} (h : l₁.Subperm l₂)
    (hn : l₂.Nodup) : l₁.Nodup := by
  obtain ⟨l, p, s⟩ := h
  exact p.nodup_iff.mp (List.Nodup.sublist s hn)

theorem labelDraw_subperm [DecidableEq α] (S : Sampler α) (probs : Label → ℚ)
    (P : Label → List α) (c s : ℕ) (l : Label) :
    (labelDraw S probs P c s l).Subperm (P l) := by
  unfold labelDraw
  split
  · exact S.subperm_sample _ _ _ (Nat.min_le_right _ _)
  · exact List.nil_subperm

theorem labelDraw_length [DecidableEq α] (S : Sampler α) (probs : Label → ℚ)
    (P : Label → List α) (c s : ℕ) (l : Label)
    (hne : P l ≠ []) (hk : 0 < items_to_take c (probs l)) :
    (labelDraw S probs P c s l).length =
      min (items_to_take c (probs l)) (P l).length := by
  unfold labelDraw
  rw [if_pos ⟨hne, hk⟩]
  exact S.length_sample _ _ _ (Nat.min_le_right _ _)

theorem proportional_subset [DecidableEq α] (S : Sampler α) (probs : Label → ℚ)
    (P : Label → List α) (c : ℕ) {x : α} (hx : x ∈ proportional S probs P c) :
    x ∈ P Label.Negative ∨ x ∈ P Label.Neutral ∨ x ∈ P Label.Positive := by
  simp only [proportional, List.mem_append] at hx
  rcases hx with (h | h) | h
  · exact Or.inl ((labelDraw_subperm S probs P c 0 Label.Negative).subset h)
  · exact Or.inr (Or.inl ((labelDraw_subperm S probs P c 1 Label.Neutral).subset h))
  · exact Or.inr (Or.inr ((labelDraw_subperm S probs P c 2 Label.Positive).subset h))

theorem proportional_nodup [DecidableEq α] (S : Sampler α) (probs : Label → ℚ)
    (P : Label → List α) (c : ℕ)
    (hN : ∀ l, (P l).Nodup)
    (hD : ∀ l₁ l₂ : Label, l₁ ≠ l₂ → ∀ a ∈ P l₁, a ∉ P l₂) :
    (proportional S probs P c).Nodup := by
  have n0 := subperm_nodup (labelDraw_subperm S probs P c 0 Label.Negative) (hN _)
  have n1 := subperm_nodup (labelDraw_subperm S probs P c 1 Label.Neutral) (hN _)
  have n2 := subperm_nodup (labelDraw_subperm S probs P c 2 Label.Positive) (hN _)
  have s0 := (labelDraw_subperm S probs P c 0 Label.Negative).subset
  have s1 := (labelDraw_subperm S probs P c 1 Label.Neutral).subset
  have s2 := (labelDraw_subperm S probs P c 2 Label.Positive).subset
  unfold proportional
  rw [List.append_assoc, List.nodup_append]
  refine ⟨n0, ?_, ?_⟩
  · rw [List.nodup_append]
    refine ⟨n1, n2, ?_⟩
    intro a ha hb
    exact hD Label.Neutral Label.Positive (by simp) a (s1 ha) (s2 hb)
  · intro a ha hb
    rcases List.mem_append.mp hb with h | h
    · exact hD Label.Negative Label.Neutral (by simp) a (s0 ha) (s1 h)
    · exact hD Label.Negative Label.Positive (by simp) a (s0 ha) (s2 h)

theorem backfill_nodup [DecidableEq α] (S : Sampler α) (probs : Label → ℚ)
    (P : Label → List α) (c : ℕ) (t : List α) (ht : t.Nodup)
    (hPm : (P (max_sentiment probs)).Nodup) :
    (backfill S probs P c t).Nodup := by
  unfold backfill
  split
  · split
    · next hne =>
      have hav : ((P (max_sentiment probs)).filter (fun x => x ∉ t)).Nodup :=
        hPm.filter _
      have hsp := S.subperm_sample 3
        ((P (max_sentiment probs)).filter (fun x => x ∉ t))
        (min (c - t.length) ((P (max_sentiment probs)).filter (fun x => x ∉ t)).length)
        (Nat.min_le_right _ _)
      rw [List.nodup_append]
      refine ⟨ht, subperm_nodup hsp hav, ?_⟩
      intro a ha hb
      have := List.mem_filter.mp (hsp.subset hb)
      simp only [decide_not, Bool.not_eq_eq_eq_not, Bool.not_true, decide_eq_false_iff_not] at this
      exact this.2 ha
    · exact ht
  · exact ht

theorem trim_nodup (S : Sampler α) (c : ℕ) (t : List α) (ht : t.Nodup) :
    (trim S c t).Nodup := by
  unfold trim
  split
  · next h => exact subperm_nodup (S.subperm_sample 4 t c (le_of_lt h)) ht
  · exact ht

theorem allocate_length_le [DecidableEq α] (S : Sampler α) (probs : Label → ℚ)
    (P : Label → List α) (c : ℕ) :
    (allocate S probs P c).length ≤ c := by
  unfold allocate trim
  split
  · next h => rw [S.length_sample _ _ _ (le_of_lt h)]
  · next h => omega

theorem allocate_nodup [DecidableEq α] (S : Sampler α) (probs : Label → ℚ)
    (P : Label → List α) (c : ℕ)
    (hN : ∀ l, (P l).Nodup)
    (hD : ∀ l₁ l₂ : Label, l₁ ≠ l₂ → ∀ a ∈ P l₁, a ∉ P l₂) :
    (allocate S probs P c).Nodup :=
  trim_nodup _ _ _
    (backfill_nodup _ _ _ _ _ (proportional_nodup _ _ _ _ hN hD) (hN _))

theorem length_le_of_nodup_subset [DecidableEq α] {l l' : List α}
    (h : l.Nodup) (hs : l ⊆ l') : l.length ≤ l'.length := by
  calc l.length = l.toFinset.card := (List.toFinset_card_of_nodup h).symm
    _ ≤ l'.toFinset.card := Finset.card_le_card fun a ha =>
        List.mem_toFinset.mpr (hs (List.mem_toFinset.mp ha))
    _ ≤ l'.length := List.toFinset_card_le l'

theorem backfill_eq_self_of_ge [DecidableEq α] (S : Sampler α) (probs : Label → ℚ)
    (P : Label → List α) (c : ℕ) (t : List α) (h : ¬ t.length < c) :
    backfill S probs P c t = t := by
  unfold backfill
  rw [if_neg h]

theorem backfill_eq_self_of_filter_nil [DecidableEq α] (S : Sampler α)
    (probs : Label → ℚ) (P : Label → List α) (c : ℕ) (t : List α)
    (h : t.length < c)
    (hnil : (P (max_sentiment probs)).filter (fun x => x ∉ t) = []) :
    backfill S probs P c t = t := by
  unfold backfill
  rw [if_pos h, if_neg (not_not.mpr hnil)]

theorem backfill_eq_append [DecidableEq α] (S : Sampler α) (probs : Label → ℚ)
    (P : Label → List α) (c : ℕ) (t : List α) (h : t.length < c)
    (hne : (P (max_sentiment probs)).filter (fun x => x ∉ t) ≠ []) :
    backfill S probs P c t =
      t ++ S.sample 3 ((P (max_sentiment probs)).filter (fun x => x ∉ t))
        (min (c - t.length) ((P (max_sentiment probs)).filter (fun x => x ∉ t)).length) := by
  unfold backfill
  rw [if_pos h, if_pos hne]

theorem trim_eq_self_of_le (S : Sampler α) (c : ℕ) (t : List α)
    (h : ¬ c < t.length) : trim S c t = t := by
  unfold trim
  rw [if_neg h]

theorem allocate_of_total_lt [DecidableEq α] (S : Sampler α) (probs : Label → ℚ)
    (P : Label → List α) (c : ℕ)
    (hN : ∀ l, (P l).Nodup)
    (hD : ∀ l₁ l₂ : Label, l₁ ≠ l₂ → ∀ a ∈ P l₁, a ∉ P l₂)
    (hc : total_size P < c) :
    (∀ x ∈ P (max_sentiment probs), x ∈ allocate S probs P c) ∧
      (allocate S probs P c).length ≤ total_size P := by
  have ht1n : (proportional S probs P c).Nodup := proportional_nodup S probs P c hN hD
  have ht1sub : (proportional S probs P c) ⊆
      P Label.Negative ++ (P Label.Neutral ++ P Label.Positive) := by
    intro x hx
    rcases proportional_subset S probs P c hx with h | h | h <;>
      simp [h, List.mem_append]
  have ht1len : (proportional S probs P c).length ≤ total_size P := by
    have h2 := length_le_of_nodup_subset ht1n ht1sub
    simp only [List.length_append] at h2
    unfold total_size
    omega
  have hlt : (proportional S probs P c).length < c := lt_of_le_of_lt ht1len hc
  by_cases hae :
      (P (max_sentiment probs)).filter (fun x => x ∉ proportional S probs P c) = []
  · have hmem : ∀ x ∈ P (max_sentiment probs), x ∈ proportional S probs P c := by
      intro x hx
      by_contra hnx
      have hxf : x ∈ (P (max_sentiment probs)).filter
          (fun x => x ∉ proportional S probs P c) :=
        List.mem_filter.mpr ⟨hx, by simpa using hnx⟩
      rw [hae] at hxf
      simp at hxf
    have hall : allocate S probs P c = proportional S probs P c := by
      unfold allocate
      rw [backfill_eq_self_of_filter_nil S probs P c _ hlt hae]
      exact trim_eq_self_of_le S c _ (by omega)
    rw [hall]
    exact ⟨hmem, ht1len⟩
  · have havn : ((P (max_sentiment probs)).filter
        (fun x => x ∉ proportional S probs P c)).Nodup :=
      (hN (max_sentiment probs)).filter _
    have havdisj : ∀ a ∈ (P (max_sentiment probs)).filter
        (fun x => x ∉ proportional S probs P c), a ∉ proportional S probs P c := by
      intro a ha
      have := (List.mem_filter.mp ha).2
      simpa using this
    have hcatn : (proportional S probs P c ++ (P (max_sentiment probs)).filter
        (fun x => x ∉ proportional S probs P c)).Nodup := by
      rw [List.nodup_append]
      exact ⟨ht1n, havn, fun a ha hb => havdisj a hb ha⟩
    have hcats : (proportional S probs P c ++ (P (max_sentiment probs)).filter
        (fun x => x ∉ proportional S probs P c)) ⊆
        P Label.Negative ++ (P Label.Neutral ++ P Label.Positive) := by
      intro x hx
      rcases List.mem_append.mp hx with h | h
      · exact ht1sub h
      · have hxm : x ∈ P (max_sentiment probs) := (List.mem_filter.mp h).1
        cases hm : max_sentiment probs <;> rw [hm] at hxm <;>
          simp [List.mem_append, hxm]
    have hsum : (proportional S probs P c).length +
        ((P (max_sentiment probs)).filter
          (fun x => x ∉ proportional S probs P c)).length ≤ total_size P := by
      have h2 := length_le_of_nodup_subset hcatn hcats
      simp only [List.length_append] at h2
      unfold total_size
      omega
    have hmin : min (c - (proportional S probs P c).length)
        ((P (max_sentiment probs)).filter
          (fun x => x ∉ proportional S probs P c)).length =
        ((P (max_sentiment probs)).filter
          (fun x => x ∉ proportional S probs P c)).length := by
      omega
    have hbf := backfill_eq_append S probs P c _ hlt hae
    rw [hmin] at hbf
    have hesp := S.subperm_sample 3 ((P (max_sentiment probs)).filter
      (fun x => x ∉ proportional S probs P c)) _ (le_refl _)
    have helen := S.length_sample 3 ((P (max_sentiment probs)).filter
      (fun x => x ∉ proportional S probs P c)) _ (le_refl _)
    have hperm := hesp.perm_of_length_le (le_of_eq helen.symm)
    have hbflen : (backfill S probs P c (proportional S probs P c)).length ≤
        total_size P := by
      rw [hbf]
      simp only [List.length_append, helen]
      omega
    have hall : allocate S probs P c =
        backfill S probs P c (proportional S probs P c) := by
      unfold allocate
      exact trim_eq_self_of_le S c _ (by omega)
    constructor
    · intro x hx
      rw [hall, hbf]
      by_cases hxt : x ∈ proportional S probs P c
      · exact List.mem_append.mpr (Or.inl hxt)
      · have hxf : x ∈ (P (max_sentiment probs)).filter
            (fun y => y ∉ proportional S probs P c) :=
          List.mem_filter.mpr ⟨hx, by simpa using hxt⟩
        exact List.mem_append.mpr (Or.inr (hperm.mem_iff.mpr hxf))
    · rw [hall]
      exact hbflen

/-! ### Facts about the fixture catalog -/

theorem books_items_nodup : ∀ l, (books_items l).Nodup := by
  intro l
  cases l <;> decide

theorem movies_items_nodup : ∀ l, (movies_items l).Nodup := by
  intro l
  cases l <;> decide

theorem books_items_disjoint :
    ∀ l₁ l₂ : Label, l₁ ≠ l₂ → ∀ a ∈ books_items l₁, a ∉ books_items l₂ := by
  decide

theorem movies_items_disjoint :
    ∀ l₁ l₂ : Label, l₁ ≠ l₂ → ∀ a ∈ movies_items l₁, a ∉ movies_items l₂ := by
  decide

/-! ### The dominant-sentiment selection -/

theorem max_sentiment_spec (p : Label → ℚ) :
    (∀ l, p l ≤ p (max_sentiment p)) ∧
      ∀ l, p l = p (max_sentiment p) → labelIdx (max_sentiment p) ≤ labelIdx l := by
  simp only [max_sentiment, pyMaxFold]
  split_ifs <;>
    (refine ⟨fun l => ?_, fun l hl => ?_⟩ <;> cases l <;>
      first
        | linarith
        | (simp only [labelIdx]; omega))

/-! ### Lemmas about the tweet preprocessing -/

theorem splitSp_ne_nil (s : List Char) : splitSp s ≠ [] := by
  cases s with
  | nil => simp [splitSp]
  | cons c cs =>
    unfold splitSp
    split
    · simp
    · split <;> simp

theorem splitSp_no_space (s : List Char) : ∀ w ∈ splitSp s, ' ' ∉ w := by
  induction s with
  | nil =>
    intro w hw
    simp [splitSp] at hw
    simp [hw]
  | cons c cs ih =>
    intro w hw
    unfold splitSp at hw
    by_cases hc : c = ' '
    · rw [if_pos hc] at hw
      rcases List.mem_cons.mp hw with h | h
      · simp [h]
      · exact ih w h
    · rw [if_neg hc] at hw
      cases h : splitSp cs with
      | nil => exact absurd h (splitSp_ne_nil cs)
      | cons w0 ws =>
        rw [h] at hw
        rcases List.mem_cons.mp hw with h2 | h2
        · subst h2
          intro hsp
          rcases List.mem_cons.mp hsp with h3 | h3
          · exact hc h3.symm
          · exact ih w0 (by rw [h]; exact List.mem_cons_self w0 ws) h3
        · exact ih w (by rw [h]; exact List.mem_cons_of_mem w0 h2)

theorem splitSp_single (w : List Char) (h : ' ' ∉ w) : splitSp w = [w] := by
  induction w with
  | nil => simp [splitSp]
  | cons c cs ih =>
    unfold splitSp
    rw [if_neg (fun hc => h (by simp [hc]))]
    rw [ih (fun hsp => h (List.mem_cons_of_mem c hsp))]

theorem splitSp_append_space (w r : List Char) (h : ' ' ∉ w) :
    splitSp (w ++ ' ' :: r) = w :: splitSp r := by
  induction w with
  | nil =>
    show splitSp (' ' :: r) = [] :: splitSp r
    simp [splitSp]
  | cons c cs ih =>
    rw [List.cons_append]
    simp only [splitSp]
    rw [if_neg (fun hc => h (by simp [hc]))]
    rw [ih (fun hsp => h (List.mem_cons_of_mem c hsp))]

theorem splitSp_joinSp (ws : List (List Char)) :
    ws ≠ [] → (∀ w ∈ ws, ' ' ∉ w) → splitSp (joinSp ws) = ws := by
  induction ws with
  | nil =>
    intro h _
    exact absurd rfl h
  | cons w ws ih =>
    intro _ hsp
    cases ws with
    | nil =>
      show splitSp (joinSp [w]) = [w]
      unfold joinSp
      exact splitSp_single w (hsp w (by simp))
    | cons w2 ws2 =>
      have hj : joinSp (w :: w2 :: ws2) = w ++ ' ' :: joinSp (w2 :: ws2) := rfl
      rw [hj, splitSp_append_space w _ (hsp w (by simp))]
      rw [ih (by simp) (fun u hu => hsp u (List.mem_cons_of_mem w hu))]

theorem procWord_cases (w : List Char) :
    procWord w = "@user".toList ∨ procWord w = "http".toList ∨ procWord w = w := by
  unfold procWord
  split_ifs <;> simp

theorem procWord_no_space (w : List Char) (h : ' ' ∉ w) : ' ' ∉ procWord w := by
  unfold procWord
  split_ifs
  · decide
  · decide
  · exact h

theorem procWord_idem (w : List Char) : procWord (procWord w) = procWord w := by
  rcases procWord_cases w with h | h | h
  · rw [h]
    decide
  · rw [h]
    decide
  · rw [h]
    exact h

/-! ### Dispatch helper lemmas -/

theorem ggr_books (S : Sampler Item) (p : Label → ℚ) (c : ℕ) :
    get_genre_recommendations S p "books" c = allocate S p books_items c := by
  unfold get_genre_recommendations
  rw [if_pos rfl]

theorem ggr_movies (S : Sampler Item) (p : Label → ℚ) (c : ℕ) :
    get_genre_recommendations S p "movies" c = allocate S p movies_items c := by
  unfold get_genre_recommendations
  rw [if_neg (by decide), if_pos rfl]

theorem books_get_eq_nil (sentiment : String) (h1 : sentiment ≠ "Positive")
    (h2 : sentiment ≠ "Neutral") (h3 : sentiment ≠ "Negative") :
    books_get sentiment = [] := by
  unfold books_get
  rw [if_neg h1, if_neg h2, if_neg h3]

theorem movies_get_eq_nil (sentiment : String) (h1 : sentiment ≠ "Positive")
    (h2 : sentiment ≠ "Neutral") (h3 : sentiment ≠ "Negative") :
    movies_get sentiment = [] := by
  unfold movies_get
  rw [if_neg h1, if_neg h2, if_neg h3]

/-! ### The claims -/

/-- C10: `preprocess_tweet` is idempotent: applying it twice gives the same
result as applying it once, because the placeholder tokens `@user` and
`http` are mapped to themselves and every other token is left unchanged. -/
theorem preprocess_tweet_idempotent (tweet : String) :
    preprocess_tweet (preprocess_tweet tweet) = preprocess_tweet tweet := by
  unfold preprocess_tweet
  have hdata : ∀ l : List Char, (String.mk l).data = l := fun _ => rfl
  rw [hdata]
  have hne : (splitSp tweet.data).map procWord ≠ [] := by
    intro h
    exact splitSp_ne_nil tweet.data (List.map_eq_nil_iff.mp h)
  have hsp : ∀ w ∈ (splitSp tweet.data).map procWord, ' ' ∉ w := by
    intro w hw
    rcases List.mem_map.mp hw with ⟨u, hu, rfl⟩
    exact procWord_no_space u (splitSp_no_space tweet.data u hu)
  rw [splitSp_joinSp _ hne hsp]
  rw [List.map_map]
  exact congrArg (fun l => String.mk (joinSp l))
    (List.map_congr_left fun a _ => procWord_idem a)

/-- C7: `analyze_sentiment` returns as `max_sentiment` a label of maximal
probability in the returned probability triple, and on ties the first label
in the enumeration order Negative, Neutral, Positive wins (Python's `max`
keeps the earlier key unless a strictly larger value appears). -/
theorem analyze_sentiment_dominant (model : String → ℕ → ℚ) (tweet : String) :
    (∀ l, (analyze_sentiment model tweet).1 l ≤
        (analyze_sentiment model tweet).1 (analyze_sentiment model tweet).2) ∧
      ∀ l, (analyze_sentiment model tweet).1 l =
          (analyze_sentiment model tweet).1 (analyze_sentiment model tweet).2 →
        labelIdx (analyze_sentiment model tweet).2 ≤ labelIdx l :=
  max_sentiment_spec fun l => model (preprocess_tweet tweet) (labelIdx l)

/-- Example classifier scores used by the C7 witness: Negative and Positive
tie at probability 1, Neutral gets 0. -/
def tieModel : String → ℕ → ℚ := fun _ i => if i = 1 then 0 else 1

/-- Witness for C7: at tied maximal probabilities for Negative and Positive,
the returned dominant label's index is at most Positive's, i.e. the earlier
tied label is the one returned. -/
theorem analyze_sentiment_dominant_witness :
    labelIdx (analyze_sentiment tieModel "great day").2 ≤ labelIdx Label.Positive :=
  (analyze_sentiment_dominant tieModel "great day").2 Label.Positive (by decide)

/-- C8: batch analysis produces exactly one result row per input row, and
every non-string row yields the sentinel row
`("Invalid text", "N/A", 0, 0, 0)` while the rest of the batch is still
processed. -/
theorem batchAnalyze_invalid_rows (model : String → ℕ → ℚ) (rows : List CsvCell) :
    (batchAnalyze model rows).length = rows.length ∧
      ∀ i (h : i < rows.length), rows.get ⟨i, h⟩ = CsvCell.notStr →
        (batchAnalyze model rows).get ⟨i, by simpa [batchAnalyze] using h⟩ =
          { text := "Invalid text", max_sentiment := "N/A",
            positive := 0, neutral := 0, negative := 0 } := by
  constructor
  · simp [batchAnalyze]
  · intro i h hrow
    have hmap : (batchAnalyze model rows).get ⟨i, by simpa [batchAnalyze] using h⟩ =
        processRow model (rows.get ⟨i, h⟩) := by
      simp [batchAnalyze]
    rw [hmap, hrow]
    rfl

/-- Witness for C8: a concrete batch with a non-string first row produces the
sentinel row there. -/
theorem batchAnalyze_invalid_rows_witness :
    (batchAnalyze (fun _ _ => 0) [CsvCell.notStr, CsvCell.str "hi"]).get
        ⟨0, by decide⟩ =
      { text := "Invalid text", max_sentiment := "N/A",
        positive := 0, neutral := 0, negative := 0 } :=
  (batchAnalyze_invalid_rows (fun _ _ => 0) [CsvCell.notStr, CsvCell.str "hi"]).2
    0 (by decide) (by decide)

/-- C1: for every sampler behaviour, profile and `count ≥ 1`, over the
built-in catalog pools (which are pairwise disjoint and duplicate-free)
`get_genre_recommendations` returns at most `count` items with no
duplicates. -/
theorem get_genre_recommendations_length_nodup (S : Sampler Item)
    (sentiment_probs : Label → ℚ) (media_type : String) (count : ℕ)
    (_hc : 1 ≤ count) :
    (get_genre_recommendations S sentiment_probs media_type count).length ≤ count ∧
      (get_genre_recommendations S sentiment_probs media_type count).Nodup := by
  unfold get_genre_recommendations
  split
  · exact ⟨allocate_length_le _ _ _ _,
      allocate_nodup _ _ _ _ books_items_nodup books_items_disjoint⟩
  · split
    · exact ⟨allocate_length_le _ _ _ _,
        allocate_nodup _ _ _ _ movies_items_nodup movies_items_disjoint⟩
    · simp

/-- Witness for C1 at a concrete sampler, profile and count. -/
theorem get_genre_recommendations_length_nodup_witness :
    (get_genre_recommendations (takeSampler Item) (fun _ => 1/3) "books" 5).length ≤ 5 ∧
      (get_genre_recommendations (takeSampler Item) (fun _ => 1/3) "books" 5).Nodup :=
  get_genre_recommendations_length_nodup (takeSampler Item) (fun _ => 1/3)
    "books" 5 (by decide)

/-- A profile putting all mass on Negative (C2 counterexample input). -/
def negOnly : Label → ℚ := fun l => match l with
  | .Negative => 1
  | .Neutral => 0
  | .Positive => 0

unseal Rat.mul Rat.add Rat.sub Rat.inv Rat.ofScientific in
set_option maxRecDepth 8192 in
/-- Counterexample to C2: with the whole probability mass on Negative and
`count = 31` (which exceeds the 30-item book catalog), the result has length
10 (the Negative bucket only), not the total catalog size 30: the backfill
draws only from the dominant bucket, so the other buckets' items are never
returned. -/
theorem get_genre_recommendations_count_exceeds_counterexample :
    total_size books_items < 31 ∧
      (get_genre_recommendations (takeSampler Item) negOnly "books" 31).length = 10 ∧
      (get_genre_recommendations (takeSampler Item) negOnly "books" 31).length ≠
        total_size books_items := by
  refine ⟨by decide, ?_, ?_⟩ <;> decide

/-- C2 (amended): if `count` exceeds the total catalog size for the media
type, the result contains every item of the highest-probability bucket and
has length at most the total catalog size — but the length need not equal
the total, since non-dominant buckets are only drawn proportionally. -/
theorem get_genre_recommendations_count_exceeds (S : Sampler Item)
    (sentiment_probs : Label → ℚ) (count : ℕ)
    (hb : total_size books_items < count)
    (hm : total_size movies_items < count) :
    ((∀ x ∈ books_items (max_sentiment sentiment_probs),
        x ∈ get_genre_recommendations S sentiment_probs "books" count) ∧
      (get_genre_recommendations S sentiment_probs "books" count).length ≤
        total_size books_items) ∧
      (∀ x ∈ movies_items (max_sentiment sentiment_probs),
        x ∈ get_genre_recommendations S sentiment_probs "movies" count) ∧
      (get_genre_recommendations S sentiment_probs "movies" count).length ≤
        total_size movies_items := by
  refine ⟨?_, ?_⟩
  · rw [ggr_books]
    exact allocate_of_total_lt S sentiment_probs books_items count
      books_items_nodup books_items_disjoint hb
  · rw [ggr_movies]
    exact allocate_of_total_lt S sentiment_probs movies_items count
      movies_items_nodup movies_items_disjoint hm

/-- Witness for C2 (amended) at a concrete sampler, profile and count. -/
theorem get_genre_recommendations_count_exceeds_witness :
    ((∀ x ∈ books_items (max_sentiment negOnly),
        x ∈ get_genre_recommendations (takeSampler Item) negOnly "books" 31) ∧
      (get_genre_recommendations (takeSampler Item) negOnly "books" 31).length ≤
        total_size books_items) ∧
      (∀ x ∈ movies_items (max_sentiment negOnly),
        x ∈ get_genre_recommendations (takeSampler Item) negOnly "movies" 31) ∧
      (get_genre_recommendations (takeSampler Item) negOnly "movies" 31).length ≤
        total_size movies_items :=
  get_genre_recommendations_count_exceeds (takeSampler Item) negOnly 31
    (by decide) (by decide)

/-- C3: in the proportional-allocation step, a label with a non-empty pool
contributes 0 items when its probability is at most 0.1, and otherwise
exactly `min(max(1, round(count * p)), pool size)` items, drawn from its own
pool without replacement (`round` being Python 3's half-to-even rounding). -/
theorem labelDraw_contribution [DecidableEq α] (S : Sampler α)
    (probs : Label → ℚ) (P : Label → List α) (c s : ℕ) (l : Label)
    (hne : P l ≠ []) :
    (labelDraw S probs P c s l).length =
      (if probs l ≤ 1/10 then 0
       else min ((max 1 (pyRound ((c : ℚ) * probs l))).toNat) (P l).length) ∧
      (labelDraw S probs P c s l).Subperm (P l) := by
  refine ⟨?_, labelDraw_subperm S probs P c s l⟩
  by_cases hp : probs l ≤ 1/10
  · rw [if_pos hp]
    unfold labelDraw
    rw [if_neg]
    · rfl
    · rintro ⟨-, hk⟩
      unfold items_to_take at hk
      rw [if_neg (not_lt.mpr hp)] at hk
      omega
  · rw [if_neg hp]
    have hk : items_to_take c (probs l) =
        (max 1 (pyRound ((c : ℚ) * probs l))).toNat := by
      unfold items_to_take
      rw [if_pos (not_le.mp hp)]
    have hkpos : 0 < items_to_take c (probs l) := by
      rw [hk]
      have h1 : (1 : ℤ) ≤ max 1 (pyRound ((c : ℚ) * probs l)) := le_max_left _ _
      omega
    rw [labelDraw_length S probs P c s l hne hkpos, hk]

/-- Witness for C3 at a concrete sampler, pools, probability and count. -/
theorem labelDraw_contribution_witness :
    (labelDraw (takeSampler ℕ) (fun _ => 3/5) (fun _ => [10, 20, 30]) 5 0
        Label.Negative).length =
      (if (3/5 : ℚ) ≤ 1/10 then 0
       else min ((max 1 (pyRound ((5 : ℕ) * (3/5 : ℚ)))).toNat)
         ([10, 20, 30] : List ℕ).length) ∧
      (labelDraw (takeSampler ℕ) (fun _ => 3/5) (fun _ => [10, 20, 30]) 5 0
        Label.Negative).Subperm [10, 20, 30] :=
  labelDraw_contribution (takeSampler ℕ) (fun _ => 3/5) (fun _ => [10, 20, 30])
    5 0 Label.Negative (by decide)

/-- Overlapping caller-supplied pools for the C4 counterexample: Negative and
Neutral share the single item `0`. -/
def overlapPools : Label → List ℕ := fun l => match l with
  | .Negative => [0]
  | .Neutral => [0]
  | .Positive => []

/-- The half/half profile for the C4 counterexample. -/
def halfProbs : Label → ℚ := fun l => match l with
  | .Negative => 1/2
  | .Neutral => 1/2
  | .Positive => 0

unseal Rat.mul Rat.add Rat.sub Rat.inv Rat.ofScientific in
set_option maxRecDepth 8192 in
/-- Counterexample to C4: with overlapping pools (item `0` in both the
Negative and the Neutral bucket) and probabilities one half each, the
proportional step draws `0` twice — nothing is skipped there, so the final
result `[0, 0]` has a duplicate. -/
theorem allocate_overlap_duplicates :
    ¬ (allocate (takeSampler ℕ) halfProbs overlapPools 2).Nodup := by
  decide

/-- C4 (amended): items already in the running result are skipped only in the
backfill step, not in the proportional step; the final result is
duplicate-free whenever the three bucket pools are duplicate-free and
pairwise disjoint (as the built-in catalog's are), but not for arbitrary
overlapping pools. -/
theorem allocate_nodup_of_disjoint [DecidableEq α] (S : Sampler α)
    (probs : Label → ℚ) (P : Label → List α) (c : ℕ)
    (hN : ∀ l, (P l).Nodup)
    (hD : ∀ l₁ l₂ : Label, l₁ ≠ l₂ → ∀ a ∈ P l₁, a ∉ P l₂) :
    (allocate S probs P c).Nodup :=
  allocate_nodup S probs P c hN hD

/-- Disjoint pools for the C4 witness. -/
def disjointPools : Label → List ℕ := fun l => match l with
  | .Negative => [0]
  | .Neutral => [1]
  | .Positive => [2]

/-- Witness for C4 (amended) at concrete disjoint pools. -/
theorem allocate_nodup_of_disjoint_witness :
    (allocate (takeSampler ℕ) halfProbs disjointPools 2).Nodup :=
  allocate_nodup_of_disjoint (takeSampler ℕ) halfProbs disjointPools 2
    (by decide) (by decide)

/-- C5: when every bucket pool is empty (the `except` fallback catalog
`{"Positive": [], "Neutral": [], "Negative": []}`), the weighted allocation
returns the empty sequence for every profile and `count ≥ 1`; being a total
function, it raises no error. -/
theorem allocate_empty_pools [DecidableEq α] (S : Sampler α)
    (sentiment_probs : Label → ℚ) (count : ℕ) (_hc : 1 ≤ count) :
    allocate S sentiment_probs (fun _ => []) count = [] := by
  have h1 : proportional S sentiment_probs (fun _ => ([] : List α)) count = [] := by
    unfold proportional labelDraw
    simp
  unfold allocate
  rw [h1]
  have h2 : backfill S sentiment_probs (fun _ => ([] : List α)) count [] = [] := by
    unfold backfill
    split <;> simp
  rw [h2]
  unfold trim
  rw [if_neg (by simp)]

/-- Witness for C5 at a concrete sampler, profile and count. -/
theorem allocate_empty_pools_witness :
    allocate (takeSampler ℕ) halfProbs (fun _ => []) 5 = [] :=
  allocate_empty_pools (takeSampler ℕ) halfProbs 5 (by decide)

/-- Counterexample to C6: an unrecognized media type and an unrecognized
sentiment key do not raise any error — both silently return the empty list
(the lookup functions are total; the Python code has no raise path:
`get_recommendations` ends in `return []` and `.get(sentiment, [])`). -/
theorem unknown_key_counterexample :
    get_recommendations (takeSampler Book) (takeSampler Movie)
        "Positive" "music" 3 = [] ∧
      get_recommendations (takeSampler Book) (takeSampler Movie)
        "Bogus" "books" 3 = [] := by
  constructor <;> decide

/-- C6 (amended): an unrecognized media type makes `get_recommendations` and
`get_genre_recommendations` return `[]`, and an unrecognized sentiment key
makes `get_recommendations` return `[]` via the dict default; no
`NotFoundError` (or any exception) exists in the code. -/
theorem unknown_key_returns_empty (Sb : Sampler Book) (Sm : Sampler Movie)
    (S : Sampler Item) (sentiment media_type : String)
    (sentiment_probs : Label → ℚ) (num count : ℕ) :
    (media_type ≠ "books" → media_type ≠ "movies" →
      get_recommendations Sb Sm sentiment media_type num = [] ∧
        get_genre_recommendations S sentiment_probs media_type count = []) ∧
      (sentiment ≠ "Positive" → sentiment ≠ "Neutral" → sentiment ≠ "Negative" →
        get_recommendations Sb Sm sentiment "books" num = [] ∧
          get_recommendations Sb Sm sentiment "movies" num = []) := by
  constructor
  · intro h1 h2
    constructor
    · unfold get_recommendations
      rw [if_neg h1, if_neg h2]
    · unfold get_genre_recommendations
      rw [if_neg h1, if_neg h2]
  · intro h1 h2 h3
    constructor
    · unfold get_recommendations
      rw [if_pos rfl, books_get_eq_nil sentiment h1 h2 h3]
      simp
    · unfold get_recommendations
      rw [if_neg (by decide), if_pos rfl, movies_get_eq_nil sentiment h1 h2 h3]
      simp

/-- Witness for C6 (amended) at the concrete unknown media type `"music"`
and unknown sentiment key `"Happy"`. -/
theorem unknown_key_returns_empty_witness :
    (get_recommendations (takeSampler Book) (takeSampler Movie)
        "Happy" "music" 3 = [] ∧
      get_genre_recommendations (takeSampler Item) halfProbs "music" 5 = []) ∧
      get_recommendations (takeSampler Book) (takeSampler Movie)
          "Happy" "books" 3 = [] ∧
        get_recommendations (takeSampler Book) (takeSampler Movie)
          "Happy" "movies" 3 = [] :=
  ⟨(unknown_key_returns_empty (takeSampler Book) (takeSampler Movie)
      (takeSampler Item) "Happy" "music" halfProbs 3 5).1 (by decide) (by decide),
    (unknown_key_returns_empty (takeSampler Book) (takeSampler Movie)
      (takeSampler Item) "Happy" "music" halfProbs 3 5).2
        (by decide) (by decide) (by decide)⟩

/-- C9: whenever the looked-up pool has at most `num_recommendations` items,
`get_recommendations` returns exactly that pool — same elements, same order,
no sampling — and a sentiment key absent from the catalog dict yields the
empty list. -/
theorem get_recommendations_small_pool (Sb : Sampler Book) (Sm : Sampler Movie)
    (sentiment : String) (num_recommendations : ℕ) :
    ((books_get sentiment).length ≤ num_recommendations →
      get_recommendations Sb Sm sentiment "books" num_recommendations =
        (books_get sentiment).map Item.book) ∧
      ((movies_get sentiment).length ≤ num_recommendations →
        get_recommendations Sb Sm sentiment "movies" num_recommendations =
          (movies_get sentiment).map Item.movie) ∧
      (sentiment ≠ "Positive" → sentiment ≠ "Neutral" → sentiment ≠ "Negative" →
        get_recommendations Sb Sm sentiment "books" num_recommendations = [] ∧
          get_recommendations Sb Sm sentiment "movies" num_recommendations = []) := by
  refine ⟨?_, ?_, ?_⟩
  · intro h
    unfold get_recommendations
    rw [if_pos rfl, if_neg (not_lt.mpr h)]
  · intro h
    unfold get_recommendations
    rw [if_neg (by decide), if_pos rfl, if_neg (not_lt.mpr h)]
  · intro h1 h2 h3
    constructor
    · unfold get_recommendations
      rw [if_pos rfl, books_get_eq_nil sentiment h1 h2 h3]
      simp
    · unfold get_recommendations
      rw [if_neg (by decide), if_pos rfl, movies_get_eq_nil sentiment h1 h2 h3]
      simp

/-- Witness for C9: the full 10-item Positive book pool is returned verbatim
when 10 items are requested, and an absent key yields `[]`. -/
theorem get_recommendations_small_pool_witness :
    get_recommendations (takeSampler Book) (takeSampler Movie)
        "Positive" "books" 10 = (books_get "Positive").map Item.book ∧
      get_recommendations (takeSampler Book) (takeSampler Movie)
        "Happy" "movies" 3 = [] :=
  ⟨(get_recommendations_small_pool (takeSampler Book) (takeSampler Movie)
      "Positive" 10).1 (by decide),
    ((get_recommendations_small_pool (takeSampler Book) (takeSampler Movie)
      "Happy" 3).2.2 (by decide) (by decide) (by decide)).2⟩
